import Mathlib

/-!
Verification development for the auth-service credential lifecycle engine.

The Go sources are shallowly embedded as follows:
* time is modeled as `Int` Unix seconds, passed explicitly where the Go code
  calls `time.Now()`;
* JWTs are modeled at the claims level: a `Token` carries its raw string form,
  its claim set, and two flags recording whether the signing algorithm is the
  expected HMAC family and whether the signature verifies under the process
  secret.  `jwtParse` mirrors `jwt.Parse` of golang-jwt v5 (keyfunc algorithm
  check, signature check, and the default registered-claims validation of an
  `exp` claim when present);
* the two stores are modeled at the repository-interface contract level
  (section 4.4 of the spec): lookups return the typed not-found signal exactly
  when no matching row exists, and the Redis denylist is a list of entries each
  live until its absolute expiry instant;
* cryptographic digests (SHA-256 for tokens, bcrypt for passwords) are modeled
  as injective tagging functions - the service logic depends only on their
  determinism and collision-freeness;
* best-effort store writes (denylist add, record delete, the token-record
  insert) take an explicit Boolean recording whether the external call
  succeeded, since the Go code swallows these failures;
* the concrete repositories wrap the ErrNotFound sentinel with fmt.Errorf %w,
  while the service compares errors against the bare sentinel with plain
  equality; the constant `wrappedNotFoundEqualsSentinel` records that this
  comparison observes false, so the sentinel-equality branches of the service
  remain in the model as the dead code they are in the composed program.
-/

deriving instance DecidableEq for Except

namespace AuthSvc

/-- A JWT claim value: golang-jwt `MapClaims` values used by this service are
strings or numbers (numbers surface as float64; all values used here are
integral seconds, modeled as `Int`). -/
inductive ClaimValue
  | str (s : String)
  | num (n : Int)
deriving DecidableEq

abbrev Claims := List (String × ClaimValue)

/-- Map lookup over the claim set (Go `claims["k"]`). -/
def lookupClaim : Claims → String → Option ClaimValue
  | [], _ => none
  | (k, v) :: rest, key => if k = key then some v else lookupClaim rest key

/-- An in-flight token: its raw string form plus what verification would
observe about it (claim set, algorithm family, signature validity). -/
structure Token where
  raw : String
  claims : Claims
  algHMAC : Bool
  sigValid : Bool
deriving DecidableEq

/-- The error outcomes of JWTManager verification, one per distinct Go error. -/
inductive JWTError
  | parseFailed    -- "failed to parse token: %w" (bad alg, bad signature, or v5 claim validation)
  | invalidUserId  -- "invalid user_id in token"
  | invalidEmail   -- "invalid email in token"
  | invalidExp     -- "invalid exp in token"
  | invalidIat     -- "invalid iat in token"
  | invalidType    -- "invalid token type"
  | expired        -- "token is expired"
deriving DecidableEq

/-- JWT signing configuration held by `JWTManager` (durations in seconds). -/
structure JWTConfig where
  accessExpiry : Int
  refreshExpiry : Int
deriving DecidableEq

/-- The jwt.Parse call with the HMAC keyfunc of jwt.go: fails when the algorithm is
not HMAC, when the signature does not verify, or (golang-jwt v5 default
registered-claims validation) when a present numeric `exp` claim lies in the
past. -/
def jwtParse (now : Int) (t : Token) : Except JWTError Claims :=
  if !t.algHMAC then .error .parseFailed
  else if !t.sigValid then .error .parseFailed
  else
    match lookupClaim t.claims "exp" with
    | some (.num e) => if e < now then .error .parseFailed else .ok t.claims
    | _ => .ok t.claims

/-- domain.TokenClaims. -/
structure TokenClaims where
  userID : String
  email : String
  exp : Int
  iat : Int
deriving DecidableEq

/-- TokenClaims.IsExpired: `time.Now().Unix() > tc.Exp`. -/
def TokenClaims.isExpired (now : Int) (tc : TokenClaims) : Bool :=
  now > tc.exp

/-- JWTManager.ValidateToken: parse, then require string `user_id`, string
`email`, numeric `exp` and `iat`, then reject when expired. -/
def jwtValidateToken (now : Int) (t : Token) : Except JWTError TokenClaims :=
  match jwtParse now t with
  | .error e => .error e
  | .ok claims =>
    match lookupClaim claims "user_id" with
    | some (.str userID) =>
      match lookupClaim claims "email" with
      | some (.str email) =>
        match lookupClaim claims "exp" with
        | some (.num exp) =>
          match lookupClaim claims "iat" with
          | some (.num iat) =>
            let tc : TokenClaims := ⟨userID, email, exp, iat⟩
            if tc.isExpired now then .error .expired else .ok tc
          | _ => .error .invalidIat
        | _ => .error .invalidExp
      | _ => .error .invalidEmail
    | _ => .error .invalidUserId

/-- JWTManager.ValidateRefreshToken: parse, then require the `type` marker to
equal `refresh`, then string `user_id`, numeric `exp`, and non-expiry. -/
def jwtValidateRefreshToken (now : Int) (t : Token) : Except JWTError String :=
  match jwtParse now t with
  | .error e => .error e
  | .ok claims =>
    if lookupClaim claims "type" != some (.str "refresh") then .error .invalidType
    else
      match lookupClaim claims "user_id" with
      | some (.str userID) =>
        match lookupClaim claims "exp" with
        | some (.num exp) =>
          if now > exp then .error .expired else .ok userID
        | _ => .error .invalidExp
      | _ => .error .invalidUserId

/-- JWTManager.GenerateAccessToken claim set. -/
def accessTokenClaims (userID email : String) (now : Int) (cfg : JWTConfig) : Claims :=
  [("user_id", .str userID), ("email", .str email),
   ("exp", .num (now + cfg.accessExpiry)), ("iat", .num now)]

/-- JWTManager.GenerateRefreshToken claim set: subject, expiry, issued-at, the
`refresh` type marker and a fresh `jti`; no email claim. -/
def refreshTokenClaims (userID : String) (now : Int) (cfg : JWTConfig) (jti : String) : Claims :=
  [("user_id", .str userID), ("exp", .num (now + cfg.refreshExpiry)),
   ("iat", .num now), ("type", .str "refresh"), ("jti", .str jti)]

/-- JWTManager.GenerateAccessToken: a freshly signed HS256 token over
`accessTokenClaims`; `raw` is the signed compact string it serializes to. -/
def jwtGenerateAccessToken (userID email : String) (now : Int) (cfg : JWTConfig) (raw : String) : Token :=
  ⟨raw, accessTokenClaims userID email now cfg, true, true⟩

/-- JWTManager.GenerateRefreshToken: a freshly signed HS256 token over
`refreshTokenClaims`. -/
def jwtGenerateRefreshToken (userID : String) (now : Int) (cfg : JWTConfig) (jti raw : String) : Token :=
  ⟨raw, refreshTokenClaims userID now cfg jti, true, true⟩

/-! Validators (internal/utils/validator.go). -/

/-- Character class of the local part of the email regex. -/
def isLocalChar (c : Char) : Bool :=
  c.isAlpha || c.isDigit || c = '.' || c = '_' || c = '%' || c = '+' || c = '-'

/-- Character class of the domain part of the email regex. -/
def isDomainChar (c : Char) : Bool :=
  c.isAlpha || c.isDigit || c = '.' || c = '-'

/-- Matches the anchored domain fragment of the email regex: one or more
domain characters, a dot, then at least two ASCII letters running to the end.
Since the final letter run cannot contain a dot, the splitting dot is
necessarily the last dot of the string. -/
def matchEmailDomain (cs : List Char) : Bool :=
  let r := cs.reverse
  let tld := r.takeWhile (fun c => c.isAlpha)
  match r.drop tld.length with
  | '.' :: mid => decide (tld.length ≥ 2) && !mid.isEmpty && mid.all isDomainChar
  | _ => false

/-- Splits a character list at every at sign (strings.Split semantics: n at
signs yield n + 1 groups, empty groups included). -/
def splitOnAtSign : List Char → List (List Char)
  | [] => [[]]
  | c :: rest =>
    let r := splitOnAtSign rest
    if c = '@' then [] :: r
    else
      match r with
      | [] => [[c]]
      | g :: gs => (c :: g) :: gs

/-- utils.ValidateEmail: the anchored regex over ASCII classes.  Both character
classes exclude the at sign, so a match has exactly one at sign, splitting the
string into a nonempty local part and a matching domain part. -/
def validateEmail (email : String) : Bool :=
  match splitOnAtSign email.toList with
  | [localPart, domainPart] =>
      !localPart.isEmpty && localPart.all isLocalChar
        && matchEmailDomain domainPart
  | _ => false

/-- utils.ValidatePassword: at least 8 bytes with an ASCII upper, lower, and
digit. -/
def validatePassword (password : String) : Bool :=
  decide (password.utf8ByteSize ≥ 8)
    && password.toList.any (fun c => 'A' ≤ c && c ≤ 'Z')
    && password.toList.any (fun c => 'a' ≤ c && c ≤ 'z')
    && password.toList.any (fun c => '0' ≤ c && c ≤ '9')

/-- ASCII lowercasing of one character (strings.ToLower restricted to the
ASCII range, which is all the email validator admits). -/
def toLowerChar (c : Char) : Char :=
  if 'A' ≤ c && c ≤ 'Z' then Char.ofNat (c.toNat + 32) else c

/-- utils.SanitizeEmail: trim leading and trailing whitespace
(strings.TrimSpace), then lowercase. -/
def sanitizeEmail (email : String) : String :=
  String.mk
    (((email.toList.dropWhile Char.isWhitespace).reverse.dropWhile
        Char.isWhitespace).reverse.map toLowerChar)

/-- utils.HashPassword: bcrypt is modeled as an injective digest; the service
logic only compares digests for equality. -/
def hashPassword (password : String) : String :=
  String.append "bcrypt:" password

/-- utils.CheckPasswordHash: the digest of the candidate password must equal
the stored digest. -/
def checkPasswordHash (password hash : String) : Bool :=
  hashPassword password == hash

/-- authService.hashToken: SHA-256 modeled as an injective digest over the raw
token string. -/
def hashToken (token : String) : String :=
  String.append "sha256:" token

/-! Domain records and store state. -/

/-- domain.User (the fields the engine reads; timestamps and metadata that no
claim depends on are omitted). -/
structure User where
  id : String
  email : String
  passwordHash : String
  isActive : Bool
  isEmailVerified : Bool
deriving DecidableEq

/-- domain.RefreshToken: the durable refresh-token record. -/
structure RefreshTokenRecord where
  id : String
  userID : String
  tokenHash : String
  expiresAt : Int
deriving DecidableEq

/-- One denylist key `blacklist:token:<raw>`: live until `expiresAt`. -/
structure BlacklistEntry where
  token : String
  expiresAt : Int
deriving DecidableEq

/-- The combined observable state of the two stores. -/
structure AuthState where
  users : List User
  tokens : List RefreshTokenRecord
  blacklist : List BlacklistEntry
deriving DecidableEq

/-- UserRepository.GetByEmail, at the interface contract: the row whose email
column equals the argument exactly (`users.email` is a plain VARCHAR, so the
comparison is case-sensitive), or the not-found signal. -/
def getUserByEmail (st : AuthState) (email : String) : Option User :=
  st.users.find? (fun u => u.email == email)

/-- UserRepository.GetByID. -/
def getUserByID (st : AuthState) (id : String) : Option User :=
  st.users.find? (fun u => u.id == id)

/-- TokenRepository.GetByTokenHash. -/
def getTokenByHash (st : AuthState) (h : String) : Option RefreshTokenRecord :=
  st.tokens.find? (fun r => r.tokenHash == h)

/-- TokenBlacklistService.AddToken: SET with TTL `expiry`; the key lives until
`now + expiry`. -/
def addTokenToBlacklist (st : AuthState) (token : String) (now expiry : Int) : AuthState :=
  { st with blacklist := st.blacklist ++ [⟨token, now + expiry⟩] }

/-- TokenBlacklistService.IsTokenBlacklisted: EXISTS on the key - true while
some entry for this token has not yet reached its expiry instant. -/
def isTokenBlacklisted (st : AuthState) (now : Int) (token : String) : Bool :=
  st.blacklist.any (fun e => e.token == token && now < e.expiresAt)

/-- What a Go sentinel-equality test `err == repository.ErrNotFound` observes
for the error a concrete repository returns on a missing row.  Every
repository wraps the sentinel with fmt.Errorf and the %w verb (user GetByEmail
and GetByID, token GetByTokenHash), and a %w-wrapped error is a distinct Go
value, never identical to the bare sentinel under plain interface equality.
The service methods in part_003 compare with plain ==/!=, so in the composed
program their sentinel-equality branches observe false; this constant records
that, keeping those branches present but dead in the model, exactly as in the
source. -/
def wrappedNotFoundEqualsSentinel : Bool := false

/-- The service-level error outcomes, one per distinct Go error construction
site in the authService methods.  Constructors marked dead correspond to the
sentinel-equality branches that are unreachable in the composed program. -/
inductive AuthError
  | invalidEmailFormat        -- Register: "invalid email format"
  | invalidPasswordFormat     -- Register: "password must be at least 8 characters long ..."
  | userAlreadyExists         -- Register pre-check: "user with email %s already exists"
  | checkUserExistenceFailed  -- Register: "failed to check user existence: %w" (taken on every lookup miss)
  | createUserDuplicateEmail  -- Register (dead): "failed to create user: ... already exists ..." (unique violation)
  | saveRefreshTokenFailed    -- issuance: "failed to save refresh token: %w"
  | invalidRefresh (e : JWTError)  -- RefreshToken: "invalid refresh token: %w"
  | refreshTokenNotFound      -- RefreshToken (dead): "invalid refresh token"
  | getTokenFailed            -- RefreshToken: "failed to get token: %w" (taken on every lookup miss)
  | refreshTokenExpired       -- RefreshToken: "refresh token expired"
  | refreshTokenBlacklisted   -- RefreshToken: "refresh token is blacklisted"
  | getUserFailed (cause : String)  -- Login / RefreshToken: "failed to get user: %w"
  | userInactive              -- Login / RefreshToken: "user account is inactive"
  | invalidCredentials        -- Login: "invalid email or password"
  | tokenBlacklisted          -- ValidateToken: "token is blacklisted"
  | invalidAccessToken (e : JWTError)  -- ValidateToken: "invalid token: %w"
deriving DecidableEq

/-- The message text the repository lookup error carries when no user row
matches an email (user GetByEmail wraps the sentinel; the interpolated email
is elided as %s). -/
def userByEmailNotFoundMsg : String :=
  "user with email %s not found: record not found"

/-- The message text the repository lookup error carries when no user row
matches an id (user GetByID). -/
def userByIDNotFoundMsg : String :=
  "user with id %s not found: record not found"

/-- The human-readable message each service error carries (the exact Go format
strings; interpolated arguments are elided as %s, and wrapped causes that no
compared message pair depends on are elided as %w). -/
def errorMessage : AuthError → String
  | .invalidEmailFormat => "invalid email format"
  | .invalidPasswordFormat => "password must be at least 8 characters long and contain uppercase, lowercase, and number"
  | .userAlreadyExists => "user with email %s already exists"
  | .checkUserExistenceFailed => "failed to check user existence: user with email %s not found: record not found"
  | .createUserDuplicateEmail => "failed to create user: user with email %s already exists: user with this email already exists"
  | .saveRefreshTokenFailed => "failed to save refresh token: %w"
  | .invalidRefresh _ => "invalid refresh token: %w"
  | .refreshTokenNotFound => "invalid refresh token"
  | .getTokenFailed => "failed to get token: token with hash not found: record not found"
  | .refreshTokenExpired => "refresh token expired"
  | .refreshTokenBlacklisted => "refresh token is blacklisted"
  | .getUserFailed cause => String.append "failed to get user: " cause
  | .userInactive => "user account is inactive"
  | .invalidCredentials => "invalid email or password"
  | .tokenBlacklisted => "token is blacklisted"
  | .invalidAccessToken _ => "invalid token: %w"

/-- strings.Contains. -/
def containsSubstr (s sub : String) : Bool :=
  (List.range (s.length + 1)).any (fun i => sub.toList.isPrefixOf (s.toList.drop i))

/-- The Register handler classification (handler/auth_handler.go): an error
whose message contains "already exists" is answered 409 Conflict, any other
service error 400. -/
def registerHTTPStatus (e : AuthError) : Nat :=
  if containsSubstr (errorMessage e) "already exists" then 409 else 400

/-- The Login handler classification (handler/auth_handler.go): every service
error from Login is answered 401 Unauthorized, with the service message
passed through verbatim as the response message. -/
def loginHTTPStatus (_ : AuthError) : Nat := 401

/-! The credential lifecycle engine (service/auth_service.go,
service/auth_response.go). -/

/-- dto.UserInfo. -/
structure UserInfo where
  id : String
  email : String
deriving DecidableEq

/-- dto.AuthResponse. -/
structure AuthResponse where
  accessToken : Token
  tokenType : String
  expiresIn : Int
  user : UserInfo
deriving DecidableEq

/-- service.AuthResponseWithRefreshToken. -/
structure AuthResponseWithRefreshToken where
  authResponse : AuthResponse
  refreshToken : Token
  expiresIn : Int
deriving DecidableEq

/-- The nondeterministic inputs of one token-pair issuance: the generated
`jti`, the compact strings the codec signs to, the record row id, and whether
the token-record insert succeeds at the store. -/
structure IssueEnv where
  jti : String
  accessRaw : String
  refreshRaw : String
  recordID : String
  createOk : Bool
deriving DecidableEq

/-- service.generateAuthResponseWithRefreshToken: generate the pair, persist
the refresh-token record keyed by its digest with expiry `now` plus the
configured refresh lifetime; a failed insert aborts issuance with the state
unchanged. -/
def generateAuthResponseWithRefreshToken (now : Int) (cfg : JWTConfig) (env : IssueEnv)
    (st : AuthState) (user : User) :
    Except AuthError AuthResponseWithRefreshToken × AuthState :=
  let accessToken := jwtGenerateAccessToken user.id user.email now cfg env.accessRaw
  let refreshToken := jwtGenerateRefreshToken user.id now cfg env.jti env.refreshRaw
  let tokenHash := hashToken refreshToken.raw
  let record : RefreshTokenRecord := ⟨env.recordID, user.id, tokenHash, now + cfg.refreshExpiry⟩
  if env.createOk then
    (.ok ⟨⟨accessToken, "Bearer", cfg.accessExpiry, ⟨user.id, user.email⟩⟩,
          refreshToken, cfg.refreshExpiry⟩,
     { st with tokens := st.tokens ++ [record] })
  else
    (.error .saveRefreshTokenFailed, st)

/-- The nondeterministic inputs of one Register call: the issuance inputs plus
the UUID the repository assigns to the new user row. -/
structure RegisterEnv where
  issue : IssueEnv
  userID : String
deriving DecidableEq

/-- authService.Register: validate formats, then look the user up under the
RAW request email.  A found user yields the already-exists error; a lookup
miss yields the wrapped not-found error, which the service tests against the
bare sentinel with plain inequality - a test that observes true for the
wrapped value - so Register returns the failed-to-check error and the create
path (sanitize the email, hash the password, create the user, issue the pair)
below that test is unreachable in the composed program; it is kept here under
its sentinel-equality guard exactly as in the source. -/
def register (now : Int) (cfg : JWTConfig) (env : RegisterEnv)
    (st : AuthState) (email password : String) :
    Except AuthError AuthResponseWithRefreshToken × AuthState :=
  if !validateEmail email then (.error .invalidEmailFormat, st)
  else if !validatePassword password then (.error .invalidPasswordFormat, st)
  else
    match getUserByEmail st email with
    | some _ => (.error .userAlreadyExists, st)
    | none =>
      if wrappedNotFoundEqualsSentinel then
        let user : User := ⟨env.userID, sanitizeEmail email, hashPassword password, true, false⟩
        match getUserByEmail st user.email with
        | some _ => (.error .createUserDuplicateEmail, st)
        | none =>
          generateAuthResponseWithRefreshToken now cfg env.issue
            { st with users := st.users ++ [user] } user
      else (.error .checkUserExistenceFailed, st)

/-- authService.Login: look up by the sanitized email.  On a lookup miss the
service tests the wrapped not-found error against the bare sentinel with
plain equality, which observes false, so the invalid-email-or-password branch
for a missing user is dead and Login returns the failed-to-get-user wrap of
the repository message instead.  A found but inactive account is rejected
with its own error before the password check; a password mismatch yields the
invalid-email-or-password error; otherwise the pair is issued.  The
best-effort last-login update does not touch any modeled field. -/
def login (now : Int) (cfg : JWTConfig) (env : IssueEnv)
    (st : AuthState) (email password : String) :
    Except AuthError AuthResponseWithRefreshToken × AuthState :=
  match getUserByEmail st (sanitizeEmail email) with
  | none =>
    if wrappedNotFoundEqualsSentinel then (.error .invalidCredentials, st)
    else (.error (.getUserFailed userByEmailNotFoundMsg), st)
  | some user =>
    if !user.isActive then (.error .userInactive, st)
    else if !checkPasswordHash password user.passwordHash then (.error .invalidCredentials, st)
    else generateAuthResponseWithRefreshToken now cfg env st user

/-- The nondeterministic inputs of one rotation: the issuance inputs plus
whether the best-effort denylist add and record delete succeed. -/
structure RotateEnv where
  issue : IssueEnv
  addOk : Bool
  deleteOk : Bool
deriving DecidableEq

/-- authService.RefreshToken: verify via the codec, look the record up under
the raw token digest, reject an expired record, reject a denylisted raw token,
reject a missing or inactive user; then best-effort add the raw token to the
denylist with the FIXED configured refresh lifetime as TTL, best-effort delete
the record by digest, and issue a fresh pair. -/
def refreshRotate (now : Int) (cfg : JWTConfig) (env : RotateEnv)
    (st : AuthState) (t : Token) :
    Except AuthError AuthResponseWithRefreshToken × AuthState :=
  match jwtValidateRefreshToken now t with
  | .error e => (.error (.invalidRefresh e), st)
  | .ok userID =>
    let tokenHash := hashToken t.raw
    match getTokenByHash st tokenHash with
    | none =>
      -- the invalid-refresh-token branch for the bare sentinel is dead: the
      -- repository wraps ErrNotFound, so the equality test observes false
      -- and the failed-to-get-token wrap is returned instead
      if wrappedNotFoundEqualsSentinel then (.error .refreshTokenNotFound, st)
      else (.error .getTokenFailed, st)
    | some dbToken =>
      if now > dbToken.expiresAt then (.error .refreshTokenExpired, st)
      else if isTokenBlacklisted st now t.raw then (.error .refreshTokenBlacklisted, st)
      else
        match getUserByID st userID with
        | none => (.error (.getUserFailed userByIDNotFoundMsg), st)
        | some user =>
          if !user.isActive then (.error .userInactive, st)
          else
            let st1 := if env.addOk then addTokenToBlacklist st t.raw now cfg.refreshExpiry else st
            let st2 := if env.deleteOk
              then { st1 with tokens := st1.tokens.filter (fun r => r.tokenHash != tokenHash) }
              else st1
            generateAuthResponseWithRefreshToken now cfg env.issue st2 user

/-- authService.Logout: when a nonempty refresh token is presented whose
record exists and belongs to the calling user, best-effort denylist it and
delete its record; in every case return success. -/
def logout (now : Int) (cfg : JWTConfig) (addOk deleteOk : Bool)
    (st : AuthState) (userID rawRefreshToken : String) :
    Except AuthError Unit × AuthState :=
  if rawRefreshToken != "" then
    let tokenHash := hashToken rawRefreshToken
    match getTokenByHash st tokenHash with
    | some dbToken =>
      if dbToken.userID == userID then
        let st1 := if addOk then addTokenToBlacklist st rawRefreshToken now cfg.refreshExpiry else st
        let st2 := if deleteOk
          then { st1 with tokens := st1.tokens.filter (fun r => r.tokenHash != tokenHash) }
          else st1
        (.ok (), st2)
      else (.ok (), st)
    | none => (.ok (), st)
  else (.ok (), st)

/-- authService.ValidateToken: the denylist check runs first; only a
non-denylisted token reaches codec verification. -/
def authValidateToken (now : Int) (st : AuthState) (t : Token) :
    Except AuthError TokenClaims :=
  if isTokenBlacklisted st now t.raw then .error .tokenBlacklisted
  else
    match jwtValidateToken now t with
    | .error e => .error (.invalidAccessToken e)
    | .ok claims => .ok claims

/-! The rate limiter (service/rate_limiter.go).  The sorted set under
`ratelimit:<key>` is modeled as the list of member scores (admission Unix
seconds); member strings only ensure multiset semantics, which a list has. -/

/-- RateLimiter.Allow for one key: ZREMRANGEBYSCORE 0 (now - window) removes
every entry scored in the closed interval from 0 to now - window, then the
request is denied when at least `limit` entries survive, and otherwise
admitted with a new entry scored `now`.  Returns the decision and the
resulting entry list. -/
def rateLimiterAllow (now : Int) (limit : Nat) (window : Int) (entries : List Int) :
    Bool × List Int :=
  let windowStart := now - window
  let kept := entries.filter (fun s => !(decide (0 ≤ s) && decide (s ≤ windowStart)))
  if kept.length ≥ limit then (false, kept)
  else (true, kept ++ [now])

/-- A sequence of Allow calls on one key at the given times, starting from the
given entry list; returns the times of the admitted requests. -/
def runAllow (limit : Nat) (window : Int) : List Int → List Int → List Int
  | _, [] => []
  | entries, t :: ts =>
    let r := rateLimiterAllow t limit window entries
    (if r.1 then [t] else []) ++ runAllow limit window r.2 ts

/-- Membership of a score in the half-open trailing window ending at `b`. -/
def inWindow (b window : Int) (s : Int) : Bool :=
  decide (b - window < s) && decide (s ≤ b)

/-- Whether an issuance result is a success. -/
def isOkResult {ε α : Type} : Except ε α → Bool
  | .ok _ => true
  | .error _ => false

/-! Helper lemmas. -/

theorem lookupClaim_nil (key : String) : lookupClaim [] key = none := rfl

theorem lookupClaim_cons (k : String) (v : ClaimValue) (rest : Claims) (key : String) :
    lookupClaim ((k, v) :: rest) key = if k = key then some v else lookupClaim rest key := rfl

/-- The modeled SHA-256 digest is injective (collision-freeness assumption of
the real digest). -/
theorem hashToken_injective {a b : String} (h : hashToken a = hashToken b) : a = b := by
  have hd : "sha256:".data ++ a.data = "sha256:".data ++ b.data := by
    have := congrArg String.data h
    simpa [hashToken, String.append] using this
  have := List.append_cancel_left hd
  cases a; cases b; exact congrArg String.mk this

/-- A live entry for a token makes the denylist check answer true. -/
theorem isTokenBlacklisted_of_mem {st : AuthState} {raw : String} {e now : Int}
    (hmem : BlacklistEntry.mk raw e ∈ st.blacklist) (hlive : now < e) :
    isTokenBlacklisted st now raw = true := by
  unfold isTokenBlacklisted
  rw [List.any_eq_true]
  exact ⟨⟨raw, e⟩, hmem, by simp [hlive]⟩

/-- Deleting by digest leaves no record with that digest to find. -/
theorem find?_filter_tokenHash_ne (l : List RefreshTokenRecord) (h : String) :
    (l.filter (fun r => r.tokenHash != h)).find? (fun r => r.tokenHash == h) = none := by
  induction l with
  | nil => rfl
  | cons r rest ih =>
    by_cases hr : r.tokenHash = h <;> simp [List.filter_cons, hr, List.find?_cons, ih]

/-! Shared concrete fixtures for witnesses and counterexamples. -/

/-- A sample signing configuration: 900 s access tokens, 7-day refresh
tokens. -/
def sampleCfg : JWTConfig := ⟨900, 604800⟩

/-- Sample issuance inputs with a successful record insert. -/
def sampleIssueEnv : IssueEnv := ⟨"jti1", "AT1", "RT1", "rec1", true⟩

/-- C2: for every raw access token present in the denylist (any entry for it
still live), authService.ValidateToken answers the blacklisted error without
regard to the cryptographic validity of the token: the token argument is
arbitrary, so in particular a validly signed, unexpired token is rejected all
the same, before codec verification runs. -/
theorem validateToken_denylisted_unauthorized
    (now : Int) (st : AuthState) (t : Token) (e : Int)
    (hmem : BlacklistEntry.mk t.raw e ∈ st.blacklist) (hlive : now < e) :
    authValidateToken now st t = .error .tokenBlacklisted := by
  unfold authValidateToken
  rw [isTokenBlacklisted_of_mem hmem hlive]
  rfl

/-- C2 witness: a denylisted access token with a valid signature and unexpired
claims is rejected with the blacklisted error, even though codec verification
alone would accept it. -/
theorem validateToken_denylisted_unauthorized_witness :
    authValidateToken 100 ⟨[], [], [⟨"AT1", 1000⟩]⟩
        (jwtGenerateAccessToken "u1" "a@x.com" 0 sampleCfg "AT1")
      = .error .tokenBlacklisted ∧
    jwtValidateToken 100 (jwtGenerateAccessToken "u1" "a@x.com" 0 sampleCfg "AT1")
      = .ok ⟨"u1", "a@x.com", 900, 0⟩ :=
  ⟨validateToken_denylisted_unauthorized 100 ⟨[], [], [⟨"AT1", 1000⟩]⟩
      (jwtGenerateAccessToken "u1" "a@x.com" 0 sampleCfg "AT1") 1000
      (by decide) (by decide),
   by decide⟩

/-- A token whose signature does not verify and whose type marker is not
`refresh` (it carries the access-token claim shape and no type marker). -/
def forgedAccessToken : Token :=
  ⟨"AT-forged",
   [("user_id", .str "u1"), ("email", .str "a@x.com"),
    ("exp", .num 1000), ("iat", .num 0)],
   true, false⟩

/-- C5 counterexample: a token with an invalid signature and a non-refresh
type marker is reported as a parse failure by
JWTManager.ValidateRefreshToken, not as the wrong-type error - the type check
runs only after jwt.Parse has verified the signature, so the wrong-type
failure is not independent of signature validity. -/
theorem verifyRefresh_wrongType_counterexample :
    jwtValidateRefreshToken 0 forgedAccessToken = .error .parseFailed ∧
    JWTError.parseFailed ≠ JWTError.invalidType := by
  exact ⟨rfl, by decide⟩

/-- C5 amended: for every token that jwt.Parse accepts (HMAC algorithm, valid
signature, registered-claims validation passed), a type marker other than
`refresh` makes JWTManager.ValidateRefreshToken fail with the wrong-type
error, before the subject and manual expiry checks. -/
theorem verifyRefresh_wrongType_after_parse
    (now : Int) (t : Token) (cl : Claims)
    (hparse : jwtParse now t = .ok cl)
    (htype : lookupClaim cl "type" ≠ some (.str "refresh")) :
    jwtValidateRefreshToken now t = .error .invalidType := by
  unfold jwtValidateRefreshToken
  rw [hparse]
  simp [htype]

/-- C5 amended witness: a validly signed access token (no type marker) is
rejected by refresh verification with the wrong-type error. -/
theorem verifyRefresh_wrongType_after_parse_witness :
    jwtValidateRefreshToken 0 (jwtGenerateAccessToken "u1" "a@x.com" 0 sampleCfg "AT1")
      = .error .invalidType :=
  verifyRefresh_wrongType_after_parse 0
    (jwtGenerateAccessToken "u1" "a@x.com" 0 sampleCfg "AT1")
    (accessTokenClaims "u1" "a@x.com" 0 sampleCfg)
    (by decide) (by decide)

/-- C10: every token produced by JWTManager.GenerateRefreshToken fails
JWTManager.ValidateToken - when still parseable the failure is precisely the
missing string email claim (the type marker is never consulted there); once
past its expiry the failure is the parse error. -/
theorem refreshTokens_fail_access_validation
    (userID jti raw : String) (iss now : Int) (cfg : JWTConfig) :
    jwtValidateToken now (jwtGenerateRefreshToken userID iss cfg jti raw) =
      .error (if iss + cfg.refreshExpiry < now then .parseFailed else .invalidEmail) := by
  by_cases hc : iss + cfg.refreshExpiry < now <;>
    simp [jwtValidateToken, jwtGenerateRefreshToken, refreshTokenClaims, jwtParse,
          lookupClaim_cons, lookupClaim_nil, hc]

/-- A store with one active and one inactive user, both with the same
password. -/
def loginUsersState : AuthState :=
  ⟨[⟨"u1", "a@x.com", hashPassword "Passw0rd1", true, false⟩,
    ⟨"u2", "b@x.com", hashPassword "Passw0rd1", false, false⟩], [], []⟩

/-- C6 counterexample: the three failing Login cases produce three pairwise
distinct message texts.  A nonexistent email does not even produce "invalid
email or password": the sentinel-equality branch is dead (the repository
wraps ErrNotFound), so the message is the failed-to-get-user wrap of the
store error, whose text contains "not found" and thereby reveals that the
account does not exist; an inactive account with the correct password yields
"user account is inactive"; a wrong password yields "invalid email or
password". -/
theorem login_messages_counterexample :
    (login 0 sampleCfg sampleIssueEnv loginUsersState "missing@x.com" "Passw0rd1").1
      = .error (.getUserFailed userByEmailNotFoundMsg) ∧
    (login 0 sampleCfg sampleIssueEnv loginUsersState "b@x.com" "Passw0rd1").1
      = .error .userInactive ∧
    (login 0 sampleCfg sampleIssueEnv loginUsersState "a@x.com" "WrongPw1").1
      = .error .invalidCredentials ∧
    errorMessage (.getUserFailed userByEmailNotFoundMsg) ≠ errorMessage .invalidCredentials ∧
    errorMessage (.getUserFailed userByEmailNotFoundMsg) ≠ errorMessage .userInactive ∧
    errorMessage .userInactive ≠ errorMessage .invalidCredentials ∧
    containsSubstr (errorMessage (.getUserFailed userByEmailNotFoundMsg)) "not found" = true := by
  exact ⟨by decide, by decide, by decide, by decide, by decide, by decide, by decide⟩

/-- C6 amended: every failing Login is answered with the uniform 401
Unauthorized category, but the message text distinguishes all three cases:
a missing user yields the failed-to-get-user wrap of the repository
not-found error (the branch that would answer "invalid email or password"
compares the wrapped error to the bare sentinel and is dead), an inactive
account yields "user account is inactive" (checked before the password), and
a wrong password yields "invalid email or password" - so the response
reveals both whether the account exists and whether it is inactive. -/
theorem login_distinct_messages_by_case
    (now1 now2 now3 : Int) (cfg1 cfg2 cfg3 : JWTConfig) (env1 env2 env3 : IssueEnv)
    (st : AuthState) (e1 p1 e2 p2 e3 p3 : String) (u2 u3 : User)
    (h1 : getUserByEmail st (sanitizeEmail e1) = none)
    (h2 : getUserByEmail st (sanitizeEmail e2) = some u2)
    (hin : u2.isActive = false)
    (h3 : getUserByEmail st (sanitizeEmail e3) = some u3)
    (hact : u3.isActive = true)
    (hpw : checkPasswordHash p3 u3.passwordHash = false) :
    (login now1 cfg1 env1 st e1 p1).1 = .error (.getUserFailed userByEmailNotFoundMsg) ∧
    (login now2 cfg2 env2 st e2 p2).1 = .error .userInactive ∧
    (login now3 cfg3 env3 st e3 p3).1 = .error .invalidCredentials ∧
    errorMessage (.getUserFailed userByEmailNotFoundMsg) ≠ errorMessage .invalidCredentials ∧
    errorMessage (.getUserFailed userByEmailNotFoundMsg) ≠ errorMessage .userInactive ∧
    errorMessage .userInactive ≠ errorMessage .invalidCredentials ∧
    (∀ ea eb : AuthError, loginHTTPStatus ea = loginHTTPStatus eb) := by
  refine ⟨?_, ?_, ?_, by decide, by decide, by decide, fun _ _ => rfl⟩
  · unfold login
    rw [h1]
    rfl
  · unfold login
    rw [h2]
    simp [hin]
  · unfold login
    rw [h3]
    simp [hact, hpw]

/-- C6 amended witness. -/
theorem login_distinct_messages_by_case_witness :
    (login 0 sampleCfg sampleIssueEnv loginUsersState "missing@x.com" "p").1
      = .error (.getUserFailed userByEmailNotFoundMsg) ∧
    (login 0 sampleCfg sampleIssueEnv loginUsersState "b@x.com" "Passw0rd1").1
      = .error .userInactive ∧
    (login 0 sampleCfg sampleIssueEnv loginUsersState "a@x.com" "WrongPw1").1
      = .error .invalidCredentials ∧
    errorMessage (.getUserFailed userByEmailNotFoundMsg) ≠ errorMessage .invalidCredentials ∧
    errorMessage (.getUserFailed userByEmailNotFoundMsg) ≠ errorMessage .userInactive ∧
    errorMessage .userInactive ≠ errorMessage .invalidCredentials ∧
    (∀ ea eb : AuthError, loginHTTPStatus ea = loginHTTPStatus eb) :=
  login_distinct_messages_by_case 0 0 0 sampleCfg sampleCfg sampleCfg
    sampleIssueEnv sampleIssueEnv sampleIssueEnv loginUsersState
    "missing@x.com" "p" "b@x.com" "Passw0rd1" "a@x.com" "WrongPw1"
    ⟨"u2", "b@x.com", hashPassword "Passw0rd1", false, false⟩
    ⟨"u1", "a@x.com", hashPassword "Passw0rd1", true, false⟩
    (by decide) (by decide) (by decide) (by decide) (by decide) (by decide)

/-- A store with one registered user whose stored email is the normalized
form. -/
def registeredState : AuthState :=
  ⟨[⟨"u1", "test@x.com", hashPassword "Passw0rd1", true, false⟩], [], []⟩

/-- Sample Register inputs. -/
def sampleRegisterEnv : RegisterEnv := ⟨⟨"jti1", "AT1", "RT1", "rec1", true⟩, "u2"⟩

/-- C4 counterexample: with test@x.com already stored, registering the raw
input Test@x.com (same normalized email) does NOT fail with Conflict.  The
pre-existence check looks the user up under the raw input and misses the
stored normalized row, and the miss does not reach the create step either:
the repository wraps ErrNotFound, the sentinel-inequality test observes true,
and Register returns the failed-to-check error, which the handler classifies
400, not 409.  So the duplicate check is performed on the raw input, not on
the normalized email, and the normalized-duplicate second call does not yield
Conflict. -/
theorem register_duplicate_check_counterexample :
    sanitizeEmail "Test@x.com" = sanitizeEmail "test@x.com" ∧
    getUserByEmail registeredState "Test@x.com" = none ∧
    getUserByEmail registeredState (sanitizeEmail "Test@x.com")
      = some ⟨"u1", "test@x.com", hashPassword "Passw0rd1", true, false⟩ ∧
    (register 0 sampleCfg sampleRegisterEnv registeredState "Test@x.com" "Passw0rd1").1
      = .error .checkUserExistenceFailed ∧
    registerHTTPStatus .checkUserExistenceFailed = 400 ∧
    (400 : Nat) ≠ 409 := by
  exact ⟨by decide, by decide, by decide, by decide, by decide, by decide⟩

/-- C4 amended: Register performs its duplicate pre-check on the RAW request
email, not the normalized one.  A raw email exactly matching a stored row
fails with the already-exists error (Conflict, 409); any lookup miss - in
particular a raw input that merely normalizes to the same string as a stored
email - fails with the failed-to-check-existence error (400), because the
repository wraps the ErrNotFound sentinel and the plain sentinel-inequality
test of the service observes true for the wrapped value; the create step
behind that test is unreachable, so Register never changes the store at
all. -/
theorem register_precheck_outcomes
    (now : Int) (cfg : JWTConfig) (env : RegisterEnv) (st : AuthState)
    (email password : String)
    (hval : validateEmail email = true)
    (hpw : validatePassword password = true) :
    (∀ u0 : User, getUserByEmail st email = some u0 →
        (register now cfg env st email password).1 = .error .userAlreadyExists ∧
        registerHTTPStatus .userAlreadyExists = 409) ∧
    (getUserByEmail st email = none →
        (register now cfg env st email password).1 = .error .checkUserExistenceFailed ∧
        registerHTTPStatus .checkUserExistenceFailed = 400) ∧
    (∀ (now2 : Int) (cfg2 : JWTConfig) (env2 : RegisterEnv) (st2 : AuthState)
        (email2 password2 : String),
        (register now2 cfg2 env2 st2 email2 password2).2 = st2) := by
  refine ⟨?_, ?_, ?_⟩
  · intro u0 hraw
    unfold register
    rw [hval, hpw, hraw]
    exact ⟨rfl, by decide⟩
  · intro hraw
    unfold register
    rw [hval, hpw, hraw]
    exact ⟨rfl, by decide⟩
  · intro now2 cfg2 env2 st2 email2 password2
    unfold register
    cases hv2 : validateEmail email2 with
    | false => simp [hv2]
    | true =>
      cases hp2 : validatePassword password2 with
      | false => simp [hp2]
      | true =>
        simp only [Bool.not_true, Bool.false_eq_true, if_false]
        cases getUserByEmail st2 email2 with
        | none => simp [wrappedNotFoundEqualsSentinel]
        | some u => rfl

/-- C4 amended witness: the exact raw duplicate yields Conflict, the
normalized-only duplicate yields the 400 existence-check failure, and no
Register call changes the state. -/
theorem register_precheck_outcomes_witness :
    ((∀ u0 : User, getUserByEmail registeredState "test@x.com" = some u0 →
        (register 0 sampleCfg sampleRegisterEnv registeredState "test@x.com" "Passw0rd1").1
          = .error .userAlreadyExists ∧
        registerHTTPStatus .userAlreadyExists = 409) ∧
    (getUserByEmail registeredState "test@x.com" = none →
        (register 0 sampleCfg sampleRegisterEnv registeredState "test@x.com" "Passw0rd1").1
          = .error .checkUserExistenceFailed ∧
        registerHTTPStatus .checkUserExistenceFailed = 400) ∧
    (∀ (now2 : Int) (cfg2 : JWTConfig) (env2 : RegisterEnv) (st2 : AuthState)
        (email2 password2 : String),
        (register now2 cfg2 env2 st2 email2 password2).2 = st2)) ∧
    (getUserByEmail registeredState "Test@x.com" = none →
        (register 0 sampleCfg sampleRegisterEnv registeredState "Test@x.com" "Passw0rd1").1
          = .error .checkUserExistenceFailed ∧
        registerHTTPStatus .checkUserExistenceFailed = 400) :=
  ⟨register_precheck_outcomes 0 sampleCfg sampleRegisterEnv registeredState
      "test@x.com" "Passw0rd1" (by decide) (by decide),
   (register_precheck_outcomes 0 sampleCfg sampleRegisterEnv registeredState
      "Test@x.com" "Passw0rd1" (by decide) (by decide)).2.1⟩

/-- C8: token-pair issuance is atomic with respect to durable storage - a
failed record insert makes generateAuthResponseWithRefreshToken return an
error with the state unchanged (no token pair escapes), and every successful
result comes with the refresh-token record (keyed by the digest of the
returned raw refresh token, expiring at now plus the configured refresh
lifetime) present in the store. -/
theorem issuance_aborts_without_persisted_record
    (now : Int) (cfg : JWTConfig) (env : IssueEnv) (st : AuthState) (user : User) :
    (env.createOk = false →
        generateAuthResponseWithRefreshToken now cfg env st user
          = (.error .saveRefreshTokenFailed, st)) ∧
    (∀ (resp : AuthResponseWithRefreshToken) (st' : AuthState),
        generateAuthResponseWithRefreshToken now cfg env st user = (.ok resp, st') →
        resp.refreshToken.raw = env.refreshRaw ∧
        RefreshTokenRecord.mk env.recordID user.id (hashToken resp.refreshToken.raw)
            (now + cfg.refreshExpiry) ∈ st'.tokens) := by
  constructor
  · intro hfail
    unfold generateAuthResponseWithRefreshToken
    simp [hfail]
  · intro resp st' hok
    unfold generateAuthResponseWithRefreshToken at hok
    by_cases hc : env.createOk = true
    · rw [if_pos hc] at hok
      injection hok with h1 h2
      injection h1 with h1
      subst h2
      subst h1
      exact ⟨rfl, by simp [jwtGenerateRefreshToken]⟩
    · rw [if_neg hc] at hok
      exact absurd (congrArg Prod.fst hok) (by simp)

/-- C8 witness: at a concrete state a failed insert aborts with the state
unchanged, and the successful insert stores the record of the returned
token. -/
theorem issuance_aborts_without_persisted_record_witness :
    ((⟨"jti1", "AT1", "RT1", "rec1", false⟩ : IssueEnv).createOk = false →
        generateAuthResponseWithRefreshToken 0 sampleCfg ⟨"jti1", "AT1", "RT1", "rec1", false⟩
            ⟨[], [], []⟩ ⟨"u1", "a@x.com", hashPassword "Passw0rd1", true, false⟩
          = (.error .saveRefreshTokenFailed, ⟨[], [], []⟩)) ∧
    (∀ (resp : AuthResponseWithRefreshToken) (st' : AuthState),
        generateAuthResponseWithRefreshToken 0 sampleCfg ⟨"jti1", "AT1", "RT1", "rec1", false⟩
            ⟨[], [], []⟩ ⟨"u1", "a@x.com", hashPassword "Passw0rd1", true, false⟩
          = (.ok resp, st') →
        resp.refreshToken.raw = (⟨"jti1", "AT1", "RT1", "rec1", false⟩ : IssueEnv).refreshRaw ∧
        RefreshTokenRecord.mk "rec1" "u1" (hashToken resp.refreshToken.raw)
            (0 + sampleCfg.refreshExpiry) ∈ st'.tokens) :=
  issuance_aborts_without_persisted_record 0 sampleCfg ⟨"jti1", "AT1", "RT1", "rec1", false⟩
    ⟨[], [], []⟩ ⟨"u1", "a@x.com", hashPassword "Passw0rd1", true, false⟩

/-- C9: Logout always returns success; it performs no state change when the
token is empty, when no record with its digest exists, or when the record
belongs to a different user; and exactly in the owned-record case (with the
best-effort writes succeeding) it denylists the raw token and deletes its
record. -/
theorem logout_ownership_and_idempotence
    (now : Int) (cfg : JWTConfig) (addOk deleteOk : Bool) (st : AuthState)
    (userID raw : String) :
    (logout now cfg addOk deleteOk st userID raw).1 = .ok () ∧
    (raw = "" → (logout now cfg addOk deleteOk st userID raw).2 = st) ∧
    (getTokenByHash st (hashToken raw) = none →
        (logout now cfg addOk deleteOk st userID raw).2 = st) ∧
    (∀ r : RefreshTokenRecord, getTokenByHash st (hashToken raw) = some r →
        r.userID ≠ userID → (logout now cfg addOk deleteOk st userID raw).2 = st) ∧
    (∀ r : RefreshTokenRecord, raw ≠ "" → getTokenByHash st (hashToken raw) = some r →
        r.userID = userID →
        (logout now cfg true true st userID raw).2 =
          ⟨st.users, st.tokens.filter (fun rec => rec.tokenHash != hashToken raw),
           st.blacklist ++ [⟨raw, now + cfg.refreshExpiry⟩]⟩) := by
  refine ⟨?_, ?_, ?_, ?_, ?_⟩
  · unfold logout
    by_cases hr : raw = ""
    · simp [hr]
    · simp only [bne_iff_ne, ne_eq, hr, not_false_eq_true, if_true]
      cases hf : getTokenByHash st (hashToken raw) with
      | none => rfl
      | some r => by_cases ho : r.userID == userID <;> simp [ho]
  · intro hr
    unfold logout
    simp [hr]
  · intro hf
    unfold logout
    by_cases hr : raw = ""
    · simp [hr]
    · simp only [bne_iff_ne, ne_eq, hr, not_false_eq_true, if_true, hf]
  · intro r hf ho
    unfold logout
    by_cases hr : raw = ""
    · simp [hr]
    · simp only [bne_iff_ne, ne_eq, hr, not_false_eq_true, if_true, hf]
      simp [ho]
  · intro r hr hf ho
    unfold logout
    simp only [bne_iff_ne, ne_eq, hr, not_false_eq_true, if_true, hf]
    simp [ho, addTokenToBlacklist]

/-- C9 witness: a store with one record owned by u1; logout by the owner
revokes, logout with a foreign user id, an unknown token, or an empty token
changes nothing and still succeeds. -/
theorem logout_ownership_and_idempotence_witness :
    (logout 100 sampleCfg true true
        ⟨[], [⟨"rec0", "u1", hashToken "RT0", 604800⟩], []⟩ "u1" "RT0").1 = .ok () ∧
    ("RT0" ≠ "" ∧
      (logout 100 sampleCfg true true
          ⟨[], [⟨"rec0", "u1", hashToken "RT0", 604800⟩], []⟩ "u1" "RT0").2 =
        ⟨[], [], [⟨"RT0", (100 : Int) + 604800⟩]⟩) ∧
    (logout 100 sampleCfg true true
        ⟨[], [⟨"rec0", "u1", hashToken "RT0", 604800⟩], []⟩ "u2" "RT0").2 =
      ⟨[], [⟨"rec0", "u1", hashToken "RT0", 604800⟩], []⟩ ∧
    (logout 100 sampleCfg true true
        ⟨[], [⟨"rec0", "u1", hashToken "RT0", 604800⟩], []⟩ "u1" "").2 =
      ⟨[], [⟨"rec0", "u1", hashToken "RT0", 604800⟩], []⟩ := by
  refine ⟨(logout_ownership_and_idempotence 100 sampleCfg true true
      ⟨[], [⟨"rec0", "u1", hashToken "RT0", 604800⟩], []⟩ "u1" "RT0").1,
    ⟨by decide, ?_⟩, ?_, ?_⟩
  · have := (logout_ownership_and_idempotence 100 sampleCfg true true
        ⟨[], [⟨"rec0", "u1", hashToken "RT0", 604800⟩], []⟩ "u1" "RT0").2.2.2.2
        ⟨"rec0", "u1", hashToken "RT0", 604800⟩ (by decide) (by decide) (by decide)
    rw [this]
    decide
  · exact (logout_ownership_and_idempotence 100 sampleCfg true true
        ⟨[], [⟨"rec0", "u1", hashToken "RT0", 604800⟩], []⟩ "u2" "RT0").2.2.2.1
        ⟨"rec0", "u1", hashToken "RT0", 604800⟩ (by decide) (by decide)
  · exact (logout_ownership_and_idempotence 100 sampleCfg true true
        ⟨[], [⟨"rec0", "u1", hashToken "RT0", 604800⟩], []⟩ "u1" "").2.1 rfl

/-- Inversion of a completed rotation: a successful RefreshToken call leaves
the users untouched, appends the consumed raw token to the denylist with
expiry now plus the configured refresh lifetime exactly when the denylist add
succeeded, and replaces the token records by the (possibly undeleted) old
records plus the freshly persisted one. -/
theorem refreshRotate_ok_state
    {now : Int} {cfg : JWTConfig} {env : RotateEnv} {st st' : AuthState} {t : Token}
    {resp : AuthResponseWithRefreshToken}
    (h : refreshRotate now cfg env st t = (.ok resp, st')) :
    st'.users = st.users ∧
    st'.blacklist =
      (if env.addOk then st.blacklist ++ [⟨t.raw, now + cfg.refreshExpiry⟩]
       else st.blacklist) ∧
    ∃ uid : String,
      st'.tokens =
        (if env.deleteOk then st.tokens.filter (fun r => r.tokenHash != hashToken t.raw)
         else st.tokens)
          ++ [⟨env.issue.recordID, uid, hashToken env.issue.refreshRaw,
               now + cfg.refreshExpiry⟩] := by
  unfold refreshRotate at h
  cases hv : jwtValidateRefreshToken now t with
  | error e => rw [hv] at h; exact absurd (congrArg Prod.fst h) (by simp)
  | ok uid =>
    rw [hv] at h
    simp only at h
    cases hf : getTokenByHash st (hashToken t.raw) with
    | none =>
      rw [hf] at h
      exact absurd (congrArg Prod.fst h) (by simp [wrappedNotFoundEqualsSentinel])
    | some dbToken =>
      rw [hf] at h
      simp only at h
      by_cases hexp : now > dbToken.expiresAt
      · rw [if_pos hexp] at h; exact absurd (congrArg Prod.fst h) (by simp)
      · rw [if_neg hexp] at h
        by_cases hbl : isTokenBlacklisted st now t.raw = true
        · rw [if_pos hbl] at h; exact absurd (congrArg Prod.fst h) (by simp)
        · rw [if_neg hbl] at h
          cases hu : getUserByID st uid with
          | none => rw [hu] at h; exact absurd (congrArg Prod.fst h) (by simp)
          | some user =>
            rw [hu] at h
            simp only at h
            by_cases hact : user.isActive = true
            · rw [hact] at h
              simp only [Bool.not_true, Bool.false_eq_true, if_false] at h
              unfold generateAuthResponseWithRefreshToken at h
              by_cases hcr : env.issue.createOk = true
              · rw [if_pos hcr] at h
                injection h with h1 h2
                subst h2
                refine ⟨?_, ?_, user.id, ?_⟩ <;>
                  by_cases hadd : env.addOk <;> by_cases hdel : env.deleteOk <;>
                    simp [hadd, hdel, addTokenToBlacklist, jwtGenerateRefreshToken]
              · rw [if_neg hcr] at h
                exact absurd (congrArg Prod.fst h) (by simp)
            · rw [eq_false_of_ne_true hact] at h
              simp only [Bool.not_false, if_true] at h
              exact absurd (congrArg Prod.fst h) (by simp)

/-- A completed rotation implies the consumed record had not yet expired at
rotation time. -/
theorem refreshRotate_ok_record_unexpired
    {now : Int} {cfg : JWTConfig} {env : RotateEnv} {st st' : AuthState} {t : Token}
    {resp : AuthResponseWithRefreshToken} {rec : RefreshTokenRecord}
    (h : refreshRotate now cfg env st t = (.ok resp, st'))
    (hrec : getTokenByHash st (hashToken t.raw) = some rec) :
    now ≤ rec.expiresAt := by
  unfold refreshRotate at h
  cases hv : jwtValidateRefreshToken now t with
  | error e => rw [hv] at h; exact absurd (congrArg Prod.fst h) (by simp)
  | ok uid =>
    rw [hv] at h
    simp only at h
    rw [hrec] at h
    simp only at h
    by_cases hexp : now > rec.expiresAt
    · rw [if_pos hexp] at h
      exact absurd (congrArg Prod.fst h) (by simp)
    · omega

/-- The configuration of the C3 counterexample: refresh lifetime 100 s. -/
def rotateCfg : JWTConfig := ⟨900, 100⟩

/-- The refresh token of the C3 counterexample, issued at time 0 (its claims
and its record expire at 100). -/
def rotateToken : Token := jwtGenerateRefreshToken "u1" 0 rotateCfg "jti0" "RT0"

/-- The store of the C3 counterexample: the owning user and the record of
`rotateToken`, expiring at 100. -/
def rotateState : AuthState :=
  ⟨[⟨"u1", "a@x.com", hashPassword "Passw0rd1", true, false⟩],
   [⟨"rec0", "u1", hashToken "RT0", 100⟩], []⟩

/-- Rotation inputs of the C3 counterexample: every store write succeeds. -/
def rotateEnv : RotateEnv := ⟨⟨"jti1", "AT1", "RT1", "rec1", true⟩, true, true⟩

/-- C3 counterexample: rotating at time 50 a token whose record (and claims)
expire at time 100 writes the denylist entry with expiry 150 = rotation time
plus the FIXED configured lifetime, not 100: the entry outlives the token by
50 s, so the TTL is not the remaining validity and the entry does expire
later than the token. -/
theorem rotation_denylist_ttl_counterexample :
    isOkResult (refreshRotate 50 rotateCfg rotateEnv rotateState rotateToken).1 = true ∧
    (refreshRotate 50 rotateCfg rotateEnv rotateState rotateToken).2.blacklist
      = [⟨"RT0", 150⟩] ∧
    (∀ r ∈ rotateState.tokens, r.expiresAt = 100) ∧
    (150 : Int) ≠ 100 := by
  exact ⟨by decide, by decide, by decide, by decide⟩

/-- C3 amended: the denylist entry written by a completed rotation has TTL
equal to the FIXED configured refresh lifetime, so it expires at rotation
time plus that lifetime; since the consumed record expires at issuance time
plus the same lifetime and issuance precedes rotation, the entry expires no
earlier than the token would have - but strictly later whenever rotation
strictly follows issuance. -/
theorem rotation_denylist_entry_fixed_ttl
    (now tIss : Int) (cfg : JWTConfig) (env : RotateEnv) (st : AuthState) (t : Token)
    {st' : AuthState} {resp : AuthResponseWithRefreshToken} (rec : RefreshTokenRecord)
    (haddOk : env.addOk = true)
    (hrot : refreshRotate now cfg env st t = (.ok resp, st'))
    (hrec : getTokenByHash st (hashToken t.raw) = some rec)
    (hIss : rec.expiresAt = tIss + cfg.refreshExpiry)
    (hle : tIss ≤ now) :
    BlacklistEntry.mk t.raw (now + cfg.refreshExpiry) ∈ st'.blacklist ∧
    now ≤ rec.expiresAt ∧
    rec.expiresAt ≤ now + cfg.refreshExpiry := by
  obtain ⟨-, hb, -⟩ := refreshRotate_ok_state hrot
  refine ⟨?_, refreshRotate_ok_record_unexpired hrot hrec, ?_⟩
  · rw [hb, haddOk]
    simp
  · omega

/-- C3 amended witness: the concrete rotation at time 50 of the token
expiring at 100. -/
theorem rotation_denylist_entry_fixed_ttl_witness :
    BlacklistEntry.mk "RT0" (50 + rotateCfg.refreshExpiry)
        ∈ (refreshRotate 50 rotateCfg rotateEnv rotateState rotateToken).2.blacklist ∧
    (50 : Int) ≤ 100 ∧
    (100 : Int) ≤ 50 + rotateCfg.refreshExpiry := by
  have h := rotation_denylist_entry_fixed_ttl 50 0 rotateCfg rotateEnv rotateState rotateToken
    ⟨"rec0", "u1", hashToken "RT0", 100⟩ (by decide) rfl (by decide) (by decide) (by decide)
  exact h

/-- C1: a refresh token consumed by a completed rotation whose denylist add
succeeded can never be accepted by a later RefreshToken call, whatever later
time it runs at and whether or not the record delete succeeded: the later
call fails at the codec, at the record lookup (record deleted), at the
record-expiry check, or at the denylist check (the entry written at rotation
outlives every instant at which the record would still be unexpired, because
the record was issued no later than the rotation). -/
theorem refreshRotate_single_consumption
    (tRot tLater : Int) (cfg : JWTConfig) (env env2 : RotateEnv) (st : AuthState)
    (t : Token) {st' : AuthState} {resp : AuthResponseWithRefreshToken}
    (haddOk : env.addOk = true)
    (hrot : refreshRotate tRot cfg env st t = (.ok resp, st'))
    (hfresh : env.issue.refreshRaw ≠ t.raw)
    (hexp : ∀ r ∈ st.tokens, r.tokenHash = hashToken t.raw →
        r.expiresAt < tRot + cfg.refreshExpiry) :
    ∃ e, (refreshRotate tLater cfg env2 st' t).1 = .error e := by
  obtain ⟨-, hb, uid, ht⟩ := refreshRotate_ok_state hrot
  rw [haddOk] at hb
  simp only [if_true] at hb
  have hnewhash :
      ((fun r => r.tokenHash == hashToken t.raw)
        (⟨env.issue.recordID, uid, hashToken env.issue.refreshRaw,
          tRot + cfg.refreshExpiry⟩ : RefreshTokenRecord)) = false := by
    simp only [beq_eq_false_iff_ne, ne_eq]
    exact fun hh => hfresh (hashToken_injective hh)
  cases hv : jwtValidateRefreshToken tLater t with
  | error e =>
    exact ⟨.invalidRefresh e, by simp [refreshRotate, hv]⟩
  | ok uid2 =>
    have hfind : getTokenByHash st' (hashToken t.raw) =
        ((if env.deleteOk then st.tokens.filter (fun r => r.tokenHash != hashToken t.raw)
          else st.tokens).find? (fun r => r.tokenHash == hashToken t.raw)).or none := by
      unfold getTokenByHash
      rw [ht, List.find?_append]
      congr 1
      simp [List.find?, hnewhash]
    by_cases hdel : env.deleteOk
    · have hnone : getTokenByHash st' (hashToken t.raw) = none := by
        rw [hfind, if_pos hdel, find?_filter_tokenHash_ne]
        rfl
      exact ⟨.getTokenFailed, by simp [refreshRotate, hv, hnone, wrappedNotFoundEqualsSentinel]⟩
    · rw [if_neg hdel, Option.or_none] at hfind
      cases hfront : st.tokens.find? (fun r => r.tokenHash == hashToken t.raw) with
      | none =>
        rw [hfront] at hfind
        exact ⟨.getTokenFailed, by simp [refreshRotate, hv, hfind, wrappedNotFoundEqualsSentinel]⟩
      | some rec2 =>
        rw [hfront] at hfind
        have hmem2 : rec2 ∈ st.tokens := List.mem_of_find?_eq_some hfront
        have hhash2 : rec2.tokenHash = hashToken t.raw := by
          have := List.find?_some hfront
          simpa using this
        have hlt : rec2.expiresAt < tRot + cfg.refreshExpiry := hexp rec2 hmem2 hhash2
        by_cases hexp2 : tLater > rec2.expiresAt
        · exact ⟨.refreshTokenExpired, by simp [refreshRotate, hv, hfind, hexp2]⟩
        · have hbl : isTokenBlacklisted st' tLater t.raw = true := by
            refine isTokenBlacklisted_of_mem (e := tRot + cfg.refreshExpiry) ?_ ?_
            · rw [hb]
              simp
            · omega
          exact ⟨.refreshTokenBlacklisted, by simp [refreshRotate, hv, hfind, hexp2, hbl]⟩

/-- The store of the C1 witness: the owning user and the record of the
consumed token, issued at time 0 under the 7-day lifetime. -/
def consumedState : AuthState :=
  ⟨[⟨"u1", "a@x.com", hashPassword "Passw0rd1", true, false⟩],
   [⟨"rec0", "u1", hashToken "RT0", 604800⟩], []⟩

/-- The consumed token of the C1 witness. -/
def consumedToken : Token := jwtGenerateRefreshToken "u1" 0 sampleCfg "jti0" "RT0"

/-- Rotation inputs of the C1 witness: the denylist add succeeds but the
record delete FAILS, the harder case of the claim. -/
def consumeEnv : RotateEnv := ⟨⟨"jti1", "AT1", "RT1", "rec1", true⟩, true, false⟩

/-- C1 witness: rotate at time 100 (delete failing), then present the same
raw token again at time 200 - the second call is rejected. -/
theorem refreshRotate_single_consumption_witness :
    ∃ e, (refreshRotate 200 sampleCfg consumeEnv
            (refreshRotate 100 sampleCfg consumeEnv consumedState consumedToken).2
            consumedToken).1 = .error e :=
  refreshRotate_single_consumption 100 200 sampleCfg consumeEnv consumeEnv consumedState
    consumedToken rfl rfl (by decide) (by decide)

/-- Every admitted time of a run is one of the call times. -/
theorem runAllow_subset (limit : Nat) (window : Int) :
    ∀ (ts entries : List Int) (s : Int), s ∈ runAllow limit window entries ts → s ∈ ts := by
  intro ts
  induction ts with
  | nil => intro entries s hs; simp [runAllow] at hs
  | cons t ts ih =>
    intro entries s hs
    unfold runAllow at hs
    rcases List.mem_append.mp hs with h1 | h2
    · by_cases hd : (rateLimiterAllow t limit window entries).1 = true
      · rw [if_pos hd] at h1
        rw [List.mem_singleton] at h1
        exact h1 ▸ List.mem_cons_self t ts
      · rw [if_neg hd] at h1
        exact absurd h1 (List.not_mem_nil s)
    · exact List.mem_cons_of_mem _ (ih _ _ h2)

/-- The inductive window bound of the sliding-window log: along any
nondecreasing nonnegative call sequence, the number of admitted times inside
the half-open trailing window of length `window` ending at any instant `b`,
plus the number (capped at the limit) of initial entries inside that window,
never exceeds the limit. -/
theorem runAllow_window_bound_aux (limit : Nat) (window : Int) :
    ∀ (ts entries : List Int), ts.Pairwise (· ≤ ·) → (∀ x ∈ ts, 0 ≤ x) →
      (∀ s ∈ entries, 0 ≤ s) → ∀ b : Int,
      (runAllow limit window entries ts).countP (inWindow b window)
        + min limit (entries.countP (inWindow b window)) ≤ limit := by
  intro ts
  induction ts with
  | nil =>
    intro entries _ _ _ b
    simp only [runAllow, List.countP_nil, Nat.zero_add]
    exact min_le_left limit (entries.countP (inWindow b window))
  | cons t ts ih =>
    intro entries hsort hpos hA b
    obtain ⟨hle, hsort'⟩ := List.pairwise_cons.mp hsort
    have hpos' : ∀ x ∈ ts, 0 ≤ x := fun x hx => hpos x (List.mem_cons_of_mem _ hx)
    have hpt : 0 ≤ t := hpos t (List.mem_cons_self t ts)
    by_cases hgt : b < t
    · have hzero : (runAllow limit window entries (t :: ts)).countP (inWindow b window) = 0 := by
        rw [List.countP_eq_zero]
        intro s hs
        have hmem : s ∈ t :: ts := runAllow_subset limit window (t :: ts) entries s hs
        have hts : t ≤ s := by
          rcases List.mem_cons.mp hmem with h | h
          · omega
          · exact hle s h
        simp only [inWindow, Bool.and_eq_true, decide_eq_true_eq, not_and]
        intro _
        omega
      rw [hzero, Nat.zero_add]
      exact min_le_left _ _
    · push_neg at hgt
      have hpres :
          (entries.filter
              (fun s => !(decide (0 ≤ s) && decide (s ≤ t - window)))).countP (inWindow b window)
            = entries.countP (inWindow b window) := by
        rw [List.countP_filter]
        apply List.countP_congr
        intro s _
        constructor
        · intro h
          exact (Bool.and_eq_true ..).mp h |>.1
        · intro hI
          have hns : ¬(s ≤ t - window) := by
            simp only [inWindow, Bool.and_eq_true, decide_eq_true_eq] at hI
            omega
          rw [hI]
          simp [hns]
      have hAkept : ∀ s ∈ entries.filter
          (fun s => !(decide (0 ≤ s) && decide (s ≤ t - window))), 0 ≤ s :=
        fun s hs => hA s (List.mem_of_mem_filter hs)
      by_cases hdec :
          (entries.filter (fun s => !(decide (0 ≤ s) && decide (s ≤ t - window)))).length ≥ limit
      · have hallow : rateLimiterAllow t limit window entries =
            (false, entries.filter (fun s => !(decide (0 ≤ s) && decide (s ≤ t - window)))) := by
          simp only [rateLimiterAllow]
          rw [if_pos hdec]
        show ((if (rateLimiterAllow t limit window entries).1 then [t] else [])
            ++ runAllow limit window (rateLimiterAllow t limit window entries).2 ts).countP
              (inWindow b window) + _ ≤ _
        rw [hallow]
        simp only [Bool.false_eq_true, if_false, List.nil_append]
        rw [← hpres]
        exact ih _ hsort' hpos' hAkept b
      · have hallow : rateLimiterAllow t limit window entries =
            (true, entries.filter (fun s => !(decide (0 ≤ s) && decide (s ≤ t - window))) ++ [t]) := by
          simp only [rateLimiterAllow]
          rw [if_neg hdec]
        show ((if (rateLimiterAllow t limit window entries).1 then [t] else [])
            ++ runAllow limit window (rateLimiterAllow t limit window entries).2 ts).countP
              (inWindow b window) + _ ≤ _
        rw [hallow]
        simp only [if_true, List.countP_append]
        have hkpos : ∀ s ∈ entries.filter
            (fun s => !(decide (0 ≤ s) && decide (s ≤ t - window))) ++ [t], 0 ≤ s := by
          intro s hs
          rcases List.mem_append.mp hs with h | h
          · exact hAkept s h
          · rw [List.mem_singleton] at h
            omega
        have hIH := ih _ hsort' hpos' hkpos b
        rw [List.countP_append, hpres] at hIH
        have hklt :
            (entries.filter (fun s => !(decide (0 ≤ s) && decide (s ≤ t - window)))).length
              < limit := Nat.lt_of_not_le hdec
        have hcle : entries.countP (inWindow b window) ≤
            (entries.filter (fun s => !(decide (0 ≤ s) && decide (s ≤ t - window)))).length := by
          rw [← hpres, List.countP_eq_length_filter]
          exact List.Sublist.length_le (List.filter_sublist _)
        by_cases hIt : inWindow b window t = true
        · have h1 : ([t] : List Int).countP (inWindow b window) = 1 := by
            simp [List.countP_cons, hIt]
          rw [h1] at hIH ⊢
          omega
        · have h0 : ([t] : List Int).countP (inWindow b window) = 0 := by
            simp [List.countP_cons, hIt]
          rw [h0] at hIH ⊢
          omega

/-- C7 counterexample: with limit 1 and window 10, requests at times 0 and 10
are BOTH admitted - the entry scored exactly at now - window (score 0 at the
call at time 10) is removed by the trim, although the claim says only entries
scored before now - window are removed; the two admissions lie 10 = window
apart, so the rolling closed interval from 0 to 10, of length window,
contains limit + 1 admitted requests. -/
theorem rateLimiter_boundary_counterexample :
    (rateLimiterAllow 0 1 10 []).1 = true ∧
    (rateLimiterAllow 0 1 10 []).2 = [0] ∧
    (rateLimiterAllow 10 1 10 [0]).1 = true ∧
    (rateLimiterAllow 10 1 10 [0]).2 = [10] ∧
    runAllow 1 10 [] [0, 10] = [0, 10] ∧
    (10 : Int) - 0 ≤ 10 := by
  exact ⟨by decide, by decide, by decide, by decide, by decide, by decide⟩

/-- C7 amended: for a fixed key, starting from an empty key, at most `limit`
requests are admitted within any HALF-OPEN rolling interval of length
`window` (open at its start, closed at its end); a request finding `limit` or
more surviving entries after the trim is denied; and a request is admitted as
soon as fewer than `limit` entries are scored strictly inside the trailing
window - in particular already at exactly `window` after the oldest admitted
request, because the trim removes entries scored at or before now - window,
not only those scored strictly before it. -/
theorem rateLimiter_sliding_window_amended (limit : Nat) (window : Int) :
    (∀ ts : List Int, ts.Pairwise (· ≤ ·) → (∀ x ∈ ts, 0 ≤ x) → ∀ b : Int,
        (runAllow limit window [] ts).countP (inWindow b window) ≤ limit) ∧
    (∀ (now : Int) (entries : List Int),
        limit ≤ (entries.filter
            (fun s => !(decide (0 ≤ s) && decide (s ≤ now - window)))).length →
        (rateLimiterAllow now limit window entries).1 = false) ∧
    (∀ (now : Int) (entries : List Int), (∀ s ∈ entries, 0 ≤ s) →
        entries.countP (fun s => decide (now - window < s)) < limit →
        (rateLimiterAllow now limit window entries).1 = true) := by
  refine ⟨?_, ?_, ?_⟩
  · intro ts hsort hpos b
    have h := runAllow_window_bound_aux limit window ts [] hsort hpos
      (fun s hs => absurd hs (List.not_mem_nil s)) b
    simpa using h
  · intro now entries hge
    simp only [rateLimiterAllow]
    rw [if_pos hge]
  · intro now entries hpos hlt
    have hlen : (entries.filter
        (fun s => !(decide (0 ≤ s) && decide (s ≤ now - window)))).length
          = entries.countP (fun s => decide (now - window < s)) := by
      rw [← List.countP_eq_length_filter]
      apply List.countP_congr
      intro s hs
      have h0 : 0 ≤ s := hpos s hs
      constructor
      · intro h
        simp only [Bool.not_eq_true', Bool.and_eq_false_iff, decide_eq_false_iff_not,
          not_le] at h
        rcases h with h | h
        · omega
        · simpa using h
      · intro h
        simp only [decide_eq_true_eq] at h
        have hns : ¬(s ≤ now - window) := by omega
        simp [hns]
    simp only [rateLimiterAllow]
    rw [if_neg]
    rw [hlen]
    omega

/-- C7 witness: limit 1, window 10.  Requests at 0, 3 and 12: at most one
admission falls in the trailing window ending at 12; the request at 3 is
denied (one surviving entry, scored 0, meets the limit); after the window has
elapsed past the admitted request at 0, the request at 12 is admitted. -/
theorem rateLimiter_sliding_window_amended_witness :
    (runAllow 1 10 [] [0, 3, 12]).countP (inWindow 12 10) ≤ 1 ∧
    (rateLimiterAllow 3 1 10 [0]).1 = false ∧
    (rateLimiterAllow 12 1 10 [0]).1 = true := by
  refine ⟨(rateLimiter_sliding_window_amended 1 10).1 [0, 3, 12] ?_ ?_ 12,
    (rateLimiter_sliding_window_amended 1 10).2.1 3 [0] ?_,
    (rateLimiter_sliding_window_amended 1 10).2.2 12 [0] ?_ ?_⟩
  · decide
  · decide
  · decide
  · decide
  · decide

end AuthSvc
